import Mathlib

/-!
Verification development for the Signal-protocol persistence adapter of
WhiskeySockets/whatsapp-rust-bridge (`src/storage_adapter.rs`, `src/libsignal_store.rs`).

The adapter bridges a host-provided JavaScript store to the protocol engine's
store traits, caching results and migrating legacy JSON session encodings.
We shallowly embed the relevant code: JavaScript values are modelled by an
inductive `JsValue`, the `js_sys` / `wasm_bindgen` primitives used by the code
(`Reflect::get`, `Reflect::has`, `Object::keys`, `dyn_into`, `as_f64`,
`as_string`, `JSON::parse`, `Array::from`) are modelled by total Lean functions
following their documented JavaScript semantics, and the async store methods
become explicit state-passing functions over the adapter's cache together with
a trace of host-interaction events.

Modelling conventions:
* machine integers are `Nat`/`Int`; the Rust `as u32` / `as u8` casts on `f64`
  saturate, modelled by `toU32` / `toU8`;
* JSON numbers are restricted to integers (`JsValue.num : Int`); every input
  considered by the claims uses integral numbers only;
* the external record codec (`prost` encode / `CoreSessionRecord::deserialize`)
  is out of scope per the specification's section 4.2, which states the
  round-trip law `decode (encode r) = r`; accordingly the migration path of
  `load_session` passes the constructed `RecordStructure` through directly, and
  the byte-decoding of canonical blobs is a parameter `dec` of `load_session`;
* `JsValue.obj` lists fields in JavaScript enumeration order; keys are unique.
-/

/-- Error type mirroring `SignalProtocolError` constructors used by the adapter
(`InvalidState`, `FfiBindingError`, and codec failures).  `jsThrow` models an
uncaught JavaScript exception crossing a non-`catch` binding (a trap). -/
inductive SigErr where
  | invalidState (context : String) (message : String)
  | ffi (message : String)
  | codec (message : String)
  | jsThrow (message : String)
deriving Repr, DecidableEq

/-- Model of a JavaScript value as observed by the adapter through `js_sys`.
`bytes` is a `Uint8Array` (entries are < 256 for values the host can produce);
`obj` lists own enumerable string-keyed properties in enumeration order. -/
inductive JsValue where
  | null
  | undefined
  | bool (b : Bool)
  | num (n : Int)
  | str (s : String)
  | bytes (data : List Nat)
  | obj (fields : List (String × JsValue))
  | arr (elems : List JsValue)

/-- `JsValue::is_null() || is_undefined()`. -/
def JsValue.isNullOrUndefined : JsValue → Bool
  | .null => true
  | .undefined => true
  | _ => false

/-- JavaScript `Object(v)` succeeds, i.e. `v` is an object (arrays and
`Uint8Array`s are objects; primitives are not). -/
def JsValue.isObjectLike : JsValue → Bool
  | .obj _ => true
  | .arr _ => true
  | .bytes _ => true
  | _ => false

/-- `wasm_bindgen::JsValue::as_string`: `Some` exactly for JS strings
(no coercion). -/
def JsValue.asString : JsValue → Option String
  | .str s => some s
  | _ => none

/-- `wasm_bindgen::JsValue::as_f64`: `Some` exactly when `typeof v === "number"`;
there is no coercion (in particular a JS string such as a property key is never
a number). -/
def JsValue.asNum : JsValue → Option Int
  | .num n => some n
  | _ => none

/-- `wasm_bindgen::JsValue::as_bool`: `Some` exactly for JS booleans. -/
def JsValue.asBool : JsValue → Option Bool
  | .bool b => some b
  | _ => none

/-- `js_sys::Array::is_array` (true only for genuine `Array`s). -/
def JsValue.isArray : JsValue → Bool
  | .arr _ => true
  | _ => false

/-- A canonical decimal array index: `key` is the decimal rendering of some
natural number (JavaScript array-index property semantics). -/
def decIndex? (key : String) : Option Nat :=
  match key.toNat? with
  | some n => if toString n = key then some n else none
  | none => none

/-- `js_sys::Reflect::get(target, key)`: throws a `TypeError` when `target`
is not an object; on an object returns the property value or `undefined`. -/
def reflectGet (v : JsValue) (key : String) : Except Unit JsValue :=
  match v with
  | .obj fields => .ok ((fields.lookup key).getD .undefined)
  | .arr elems =>
    .ok (match decIndex? key with
         | some i => elems.getD i .undefined
         | none => .undefined)
  | .bytes data =>
    .ok (match decIndex? key with
         | some i => match data.get? i with
                     | some b => .num b
                     | none => .undefined
         | none => .undefined)
  | _ => .error ()

/-- `js_sys::Reflect::has(target, key)`: throws when `target` is not an object;
on an object reports presence of the named property (for the non-index keys the
adapter queries, arrays and byte buffers have none). -/
def reflectHas (v : JsValue) (key : String) : Except Unit Bool :=
  match v with
  | .obj fields => .ok (fields.lookup key).isSome
  | .arr elems => .ok ((decIndex? key).elim false (fun i => i < elems.length))
  | .bytes data => .ok ((decIndex? key).elim false (fun i => i < data.length))
  | _ => .error ()

/-- `Reflect::has(...).unwrap_or(false)` as used throughout the adapter. -/
def jsHas (v : JsValue) (key : String) : Bool :=
  (reflectHas v key).toOption.getD false

/-- `js_sys::Object::keys` on an object-like value (enumeration order). -/
def objectKeys : JsValue → List String
  | .obj fields => fields.map (·.1)
  | .arr elems => (List.range elems.length).map toString
  | .bytes data => (List.range data.length).map toString
  | _ => []

/-- Helper `get_string` (storage_adapter.rs lines 943-947). -/
def get_string (obj : JsValue) (key : String) : Option String :=
  (reflectGet obj key).toOption.bind JsValue.asString

/-- Helper `get_object` (storage_adapter.rs lines 949-952): note this returns
`Some` for any property read that does not throw, including `undefined`. -/
def get_object (obj : JsValue) (key : String) : Option JsValue :=
  (reflectGet obj key).toOption

/-- Helper `get_number` (storage_adapter.rs lines 954-959). -/
def get_number (obj : JsValue) (key : String) : Option Int :=
  (reflectGet obj key).toOption.bind JsValue.asNum

/-- Rust `f as u32` for an (integral) `f64`: saturating cast. -/
def toU32 (n : Int) : Nat :=
  if n < 0 then 0 else if n > 4294967295 then 4294967295 else n.toNat

/-- Rust `f as u8` for an (integral) `f64`: saturating cast. -/
def toU8 (n : Int) : Nat :=
  if n < 0 then 0 else if n > 255 then 255 else n.toNat

/-- Value of a standard base64 alphabet character. -/
def b64CharVal? (c : Char) : Option Nat :=
  if 'A' ≤ c ∧ c ≤ 'Z' then some (c.toNat - 'A'.toNat)
  else if 'a' ≤ c ∧ c ≤ 'z' then some (c.toNat - 'a'.toNat + 26)
  else if '0' ≤ c ∧ c ≤ '9' then some (c.toNat - '0'.toNat + 52)
  else if c = '+' then some 62
  else if c = '/' then some 63
  else none

/-- Decode one 4-character base64 block (with `=` padding allowed only in the
final block, checked by the caller passing `final := true`). Returns the
decoded bytes; `none` on any invalid character, bad padding placement, or
non-zero trailing bits (the `base64` crate's `BASE64_STANDARD` engine rejects
all of these). -/
def b64Block (c0 c1 c2 c3 : Char) (final : Bool) : Option (List Nat) := do
  let v0 ← b64CharVal? c0
  let v1 ← b64CharVal? c1
  if c2 = '=' then
    if final ∧ c3 = '=' ∧ (v1 % 16 = 0) then
      some [v0 * 4 + v1 / 16]
    else none
  else do
    let v2 ← b64CharVal? c2
    if c3 = '=' then
      if final ∧ (v2 % 4 = 0) then
        some [v0 * 4 + v1 / 16, (v1 % 16) * 16 + v2 / 4]
      else none
    else do
      let v3 ← b64CharVal? c3
      some [v0 * 4 + v1 / 16, (v1 % 16) * 16 + v2 / 4, (v2 % 4) * 64 + v3]

/-- Base64 decoding over a character list; length must be a multiple of 4. -/
def b64DecodeChars : List Char → Option (List Nat)
  | [] => some []
  | c0 :: c1 :: c2 :: c3 :: rest => do
    let block ← b64Block c0 c1 c2 c3 rest.isEmpty
    if rest.isEmpty then
      some block
    else do
      let more ← b64DecodeChars rest
      some (block ++ more)
  | _ => none

/-- `base64::prelude::BASE64_STANDARD.decode`: strict RFC 4648 standard
alphabet with mandatory canonical padding. -/
def b64Decode (s : String) : Option (List Nat) :=
  b64DecodeChars s.data

/-- The recurring pattern
`BASE64_STANDARD.decode(get_string(obj, key).unwrap_or_default()).unwrap_or_default()`. -/
def decodeB64Field (obj : JsValue) (key : String) : List Nat :=
  (b64Decode ((get_string obj key).getD "")).getD []


/-! ## Canonical record structures

Mirrors the `waproto::whatsapp` protobuf structures as populated by the
migrator (`SessionStructure`, `RecordStructure`, and the sender-key record
family).  Fields the migrator always sets are stored plainly; fields it leaves
`None` (`pending_key_exchange`, `pending_pre_key`, `needs_refresh`) are
omitted. -/

/-- `session_structure::chain::MessageKey`. -/
structure MessageKey where
  index : Nat
  cipher_key : List Nat
  mac_key : List Nat
  iv : List Nat
deriving Repr, DecidableEq

/-- `session_structure::chain::ChainKey`. -/
structure ChainKey where
  index : Nat
  key : List Nat
deriving Repr, DecidableEq

/-- `session_structure::Chain`. -/
structure Chain where
  sender_ratchet_key : List Nat
  sender_ratchet_key_private : Option (List Nat)
  chain_key : ChainKey
  message_keys : List MessageKey
deriving Repr, DecidableEq

/-- `SessionStructure` (the fields the migrator populates, lines 332-346). -/
structure SessionStructure where
  session_version : Nat
  local_identity_public : List Nat
  remote_identity_public : List Nat
  root_key : List Nat
  previous_counter : Nat
  sender_chain : Option Chain
  receiver_chains : List Chain
  remote_registration_id : Nat
  local_registration_id : Nat
  alice_base_key : List Nat
deriving Repr, DecidableEq

/-- `RecordStructure`. -/
structure RecordStructure where
  current_session : Option SessionStructure
  previous_sessions : List SessionStructure
deriving Repr, DecidableEq

/-- `sender_key_state_structure::SenderMessageKey`. -/
structure SenderMessageKey where
  iteration : Nat
  seed : List Nat
deriving Repr, DecidableEq

/-- `sender_key_state_structure::SenderChainKey`. -/
structure SenderChainKey where
  iteration : Nat
  seed : List Nat
deriving Repr, DecidableEq

/-- `sender_key_state_structure::SenderSigningKey`. -/
structure SenderSigningKey where
  public : List Nat
  private_key : Option (List Nat)
deriving Repr, DecidableEq

/-- `SenderKeyStateStructure`. -/
structure SenderKeyStateStructure where
  sender_key_id : Nat
  sender_chain_key : SenderChainKey
  sender_signing_key : SenderSigningKey
  sender_message_keys : List SenderMessageKey
deriving Repr, DecidableEq

/-- `SenderKeyRecordStructure`. -/
structure SenderKeyRecordStructure where
  sender_key_states : List SenderKeyStateStructure
deriving Repr, DecidableEq

/-! ## Legacy session migration (`JsStorageAdapter::migrate_legacy_json`,
storage_adapter.rs lines 126-354)

The adapter's own async sub-calls `get_identity_key_pair()` (serialized local
identity public key) and `get_local_registration_id()` are passed in as
`Except`-valued parameters, evaluated exactly where the source awaits them. -/

/-- A sender chain as accumulated by the migration loop (lines 266-273). -/
structure RawSenderChain where
  ratchetPub : List Nat
  ratchetPriv : List Nat
  chainKeyBytes : List Nat
  counter : Nat
  msgKeys : List (Nat × List Nat)
deriving Repr, DecidableEq

/-- A receiver chain as accumulated by the migration loop (lines 274-280). -/
structure RawReceiverChain where
  ratchetKey : List Nat
  chainKeyBytes : List Nat
  counter : Nat
  msgKeys : List (Nat × List Nat)
deriving Repr, DecidableEq

/-- The message-key loop (lines 246-264).  `keys` are the property names of
`message_keys_obj` as returned by `js_sys::Object::keys`: JavaScript strings.
`JsValue::as_f64` applied to a string returns `None` (no coercion), which this
loop turns into an `InvalidState` error. -/
def processMessageKeys (message_keys_obj : JsValue) :
    List String → Except SigErr (List (Nat × List Nat))
  | [] => .ok []
  | k :: rest =>
    let idx_val : JsValue := .str k
    match idx_val.asNum with
    | none => .error (.invalidState "migrate" "Message key index is not a number")
    | some n =>
      let idx := toU32 n
      match reflectGet message_keys_obj k with
      | .error _ => .error (.invalidState "migrate" "Missing message key")
      | .ok mkVal =>
        let msg_key_b64 := (mkVal.asString).getD ""
        let msg_key_bytes := (b64Decode msg_key_b64).getD []
        match processMessageKeys message_keys_obj rest with
        | .error e => .error e
        | .ok restKeys => .ok ((idx, msg_key_bytes) :: restKeys)

/-- The chain loop (lines 216-281).  Iterates the `_chains` properties in
order; a later `chainType == 1` entry overwrites the sender chain (mutable
`sender_chain` in the source), receiver chains are pushed in order, and any
other `chainType` is dropped. -/
def processChains (spub spriv : List Nat) (chains : JsValue) :
    List String → Except SigErr (Option RawSenderChain × List RawReceiverChain)
  | [] => .ok (none, [])
  | k :: rest =>
    match reflectGet chains k with
    | .error _ => .error (.invalidState "migrate" "Failed to read chain entry")
    | .ok chain =>
      let chain_type := toU32 ((get_number chain "chainType").getD 0)
      match get_object chain "chainKey" with
      | none => .error (.invalidState "migrate" "Missing chainKey for legacy chain entry")
      | some chain_key_obj =>
        let counter := toU32 ((get_number chain_key_obj "counter").getD 0)
        let key_bytes := decodeB64Field chain_key_obj "key"
        match get_object chain "messageKeys" with
        | none => .error (.invalidState "migrate" "Missing messageKeys for legacy chain entry")
        | some message_keys_obj =>
          if message_keys_obj.isObjectLike = false then
            .error (.invalidState "migrate" "Invalid messageKeys object")
          else
            match processMessageKeys message_keys_obj (objectKeys message_keys_obj) with
            | .error e => .error e
            | .ok message_keys =>
              match processChains spub spriv chains rest with
              | .error e => .error e
              | .ok (s, rs) =>
                if chain_type = 1 then
                  .ok (some (s.getD ⟨spub, spriv, key_bytes, counter, message_keys⟩), rs)
                else if chain_type = 2 then
                  let sender_ratchet_key_b64 := (JsValue.asString (.str k)).getD ""
                  let sender_ratchet_key := (b64Decode sender_ratchet_key_b64).getD []
                  .ok (s, ⟨sender_ratchet_key, key_bytes, counter, message_keys⟩ :: rs)
                else
                  .ok (s, rs)

/-- Lines 286-294 / 309-317: canonical message keys with zero-filled MAC key
(32 bytes) and IV (16 bytes). -/
def mkMessageKeys (pairs : List (Nat × List Nat)) : List MessageKey :=
  pairs.map fun p => ⟨p.1, p.2, List.replicate 32 0, List.replicate 16 0⟩

/-- Lines 283-305: assemble the sender `Chain` (if one was found). -/
def mkSenderChain : Option RawSenderChain → Option Chain
  | none => none
  | some r => some ⟨r.ratchetPub, some r.ratchetPriv, ⟨r.counter, r.chainKeyBytes⟩,
                    mkMessageKeys r.msgKeys⟩

/-- Lines 307-328: assemble a receiver `Chain` (no private ratchet key). -/
def mkReceiverChain (r : RawReceiverChain) : Chain :=
  ⟨r.ratchetKey, none, ⟨r.counter, r.chainKeyBytes⟩, mkMessageKeys r.msgKeys⟩

/-- Lines 161-353: migration of a single legacy session object
(`session_data`), after shape selection. -/
def migrateSessionData (getIdentity : Except SigErr (List Nat))
    (getRegId : Except SigErr Nat) (session_data : JsValue) :
    Except SigErr (Option RecordStructure) :=
  if jsHas session_data "registrationId" = false then .ok none
  else
    match getIdentity with
    | .error e => .error e
    | .ok local_identity_public =>
      let registration_id := toU32 ((get_number session_data "registrationId").getD 0)
      match get_object session_data "currentRatchet" with
      | none => .error (.invalidState "migrate" "Missing currentRatchet")
      | some current_ratchet =>
        let root_key := decodeB64Field current_ratchet "rootKey"
        let previous_counter := toU32 ((get_number current_ratchet "previousCounter").getD 0)
        match get_object current_ratchet "ephemeralKeyPair" with
        | none => .error (.invalidState "migrate" "Missing ephemeralKeyPair")
        | some ephemeral_key_pair =>
          let sender_ratchet_pub := decodeB64Field ephemeral_key_pair "pubKey"
          let sender_ratchet_priv := decodeB64Field ephemeral_key_pair "privKey"
          match get_object session_data "indexInfo" with
          | none => .error (.invalidState "migrate" "Missing indexInfo")
          | some index_info =>
            let remote_identity := decodeB64Field index_info "remoteIdentityKey"
            let base_key := decodeB64Field index_info "baseKey"
            match get_object session_data "_chains" with
            | none => .error (.invalidState "migrate" "Missing _chains")
            | some chains =>
              if chains.isObjectLike = false then
                .error (.invalidState "migrate" "_chains expected to be an object")
              else
                match processChains sender_ratchet_pub sender_ratchet_priv chains
                    (objectKeys chains) with
                | .error e => .error e
                | .ok (senderRaw, receiverRaws) =>
                  match getRegId with
                  | .error e => .error e
                  | .ok local_reg_id =>
                    .ok (some ⟨some ⟨3, local_identity_public, remote_identity, root_key,
                      previous_counter, mkSenderChain senderRaw,
                      receiverRaws.map mkReceiverChain, registration_id, local_reg_id,
                      base_key⟩, []⟩)

/-- Lines 128-158: shape selection — a direct legacy object
(`registrationId` and `currentRatchet` both present), else a `_sessions`
wrapper from which the first key in enumeration order is taken. -/
def lookupSessionData (value : JsValue) : Except SigErr (Option JsValue) :=
  let has_reg_id := jsHas value "registrationId"
  let has_ratchet := jsHas value "currentRatchet"
  if has_reg_id && has_ratchet then .ok (some value)
  else
    let has_sessions := jsHas value "_sessions"
    if has_sessions = false then .ok none
    else
      match get_object value "_sessions" with
      | none => .error (.invalidState "migrate" "Missing _sessions")
      | some sessions =>
        if sessions.isObjectLike = false then
          .error (.invalidState "migrate" "Invalid _sessions object")
        else
          match objectKeys sessions with
          | [] => .ok none
          | key :: _ =>
            match reflectGet sessions key with
            | .error _ => .error (.ffi "Failed to read selected legacy session")
            | .ok sessionData => .ok (some sessionData)

/-- `JsStorageAdapter::migrate_legacy_json` (lines 126-354), returning the
constructed `RecordStructure` (the source protobuf-encodes it; per the codec
round-trip law of spec section 4.2 the caller decodes it back unchanged). -/
def migrate_legacy_json (getIdentity : Except SigErr (List Nat))
    (getRegId : Except SigErr Nat) (value : JsValue) :
    Except SigErr (Option RecordStructure) :=
  match lookupSessionData value with
  | .error e => .error e
  | .ok none => .ok none
  | .ok (some session_data) => migrateSessionData getIdentity getRegId session_data

/-! ## Store bridge (`SessionStore` impl for `JsStorageAdapter`,
storage_adapter.rs lines 641-698)

The adapter instance's shared cache (`cached_sessions`) is passed explicitly;
host interaction is recorded as an event trace in program order, so that
"the cache is updated before the host write is issued" and "no host call was
made" are statable. -/

instance {ε α : Type} [DecidableEq ε] [DecidableEq α] : DecidableEq (Except ε α) := by
  intro x y
  cases x <;> cases y
  case ok.ok a b =>
    exact if h : a = b then .isTrue (by rw [h]) else .isFalse (by intro hh; cases hh; exact h rfl)
  case error.error a b =>
    exact if h : a = b then .isTrue (by rw [h]) else .isFalse (by intro hh; cases hh; exact h rfl)
  all_goals exact .isFalse (by intro hh; cases hh)

/-- Host-interaction and cache events, in program order. -/
inductive AdapterEvent where
  | hostLoadSession (address : String)
  | cacheInsertSession (address : String)
  | hostStoreSession (address : String) (bytes : List Nat)
deriving Repr, DecidableEq

/-- The session cache: newest insertion first, `List.lookup` finds it
(`HashMap::insert` overwrite semantics). -/
def SessionCache := List (String × RecordStructure)

/-- Outcome of `load_session`: result, updated cache, event trace. -/
structure LoadOutcome where
  result : Except SigErr (Option RecordStructure)
  cache : List (String × RecordStructure)
  events : List AdapterEvent
deriving Repr, DecidableEq

/-- `JsStorageAdapter::load_session` (lines 643-680).
`host` is the JS `loadSession` call: an error is a rejected promise
(`FfiBindingError` path); `dec` is `CoreSessionRecord::deserialize` on
canonical bytes (external codec, spec section 4.2).  Per the codec round-trip
law, a record migrated from a legacy shape is decoded back to the structure
the migrator produced, so the migration path passes the structure through.
The `console_error_panic_hook::set_once()` side effect is process-global and
not modelled. -/
def load_session (host : String → Except SigErr JsValue)
    (dec : List Nat → Except SigErr RecordStructure)
    (getIdentity : Except SigErr (List Nat)) (getRegId : Except SigErr Nat)
    (cache : List (String × RecordStructure)) (address : String) : LoadOutcome :=
  match cache.lookup address with
  | some record => ⟨.ok (some record), cache, []⟩
  | none =>
    match host address with
    | .error e => ⟨.error e, cache, [.hostLoadSession address]⟩
    | .ok value =>
      let decoded : Except SigErr (Option RecordStructure) :=
        if value.isNullOrUndefined then .ok none
        else
          match value with
          | .bytes data => match dec data with
                           | .error e => .error e
                           | .ok record => .ok (some record)
          | _ => migrate_legacy_json getIdentity getRegId value
      match decoded with
      | .error e => ⟨.error e, cache, [.hostLoadSession address]⟩
      | .ok none => ⟨.ok none, cache, [.hostLoadSession address]⟩
      | .ok (some record) =>
        ⟨.ok (some record), (address, record) :: cache, [.hostLoadSession address]⟩

/-- Outcome of `store_session`: result, updated cache, event trace. -/
structure StoreOutcome where
  result : Except SigErr Unit
  cache : List (String × RecordStructure)
  events : List AdapterEvent
deriving Repr, DecidableEq

/-- `JsStorageAdapter::store_session` (lines 682-697).  The cache is updated
first, then the record is serialized (`enc`, the external protobuf encoder,
which is infallible) and the host `storeSession` call is issued and awaited;
a host failure propagates and the cache insertion is not rolled back. -/
def store_session (hostWrite : String → List Nat → Except SigErr Unit)
    (enc : RecordStructure → List Nat)
    (cache : List (String × RecordStructure)) (address : String)
    (record : RecordStructure) : StoreOutcome :=
  let cache' := (address, record) :: cache
  let bytes := enc record
  match hostWrite address bytes with
  | .ok _ => ⟨.ok (), cache',
      [.cacheInsertSession address, .hostStoreSession address bytes]⟩
  | .error e => ⟨.error e, cache',
      [.cacheInsertSession address, .hostStoreSession address bytes]⟩

/-! ## Identity trust (`is_trusted_identity`) -/

/-- `wacore_libsignal::protocol::Direction`. -/
inductive StoreDirection where
  | sending
  | receiving
deriving Repr, DecidableEq

/-- Lines 755-758: the direction value passed to the host. -/
def directionVal : StoreDirection → Nat
  | .sending => 0
  | .receiving => 1

/-- Modelled from the spec: the JavaScript shim
`ts/libsignal_storage_adapter.js` (referenced by the `wasm_bindgen` module
attribute at storage_adapter.rs line 61) is not under `src/`.  Per spec section
4.6, `is_trusted_identity` "short-circuits to trusted for a host that does not
implement identity pinning (compatibility mode)": the shim forwards the call
when the host implements `isTrustedIdentity` and resolves `true` otherwise. -/
def shimIsTrustedIdentity
    (hostIsTrusted : Option (String → List Nat → Nat → JsValue))
    (addressName : String) (identityBytes : List Nat) (direction : Nat) : JsValue :=
  match hostIsTrusted with
  | some f => f addressName identityBytes direction
  | none => .bool true

/-- Outcome of `is_trusted_identity`: result and updated identity cache. -/
structure TrustOutcome where
  result : Except SigErr Bool
  cache : List (String × List Nat)
deriving Repr, DecidableEq

/-- `JsStorageAdapter::is_trusted_identity` (lines 740-777): a cached identical
identity short-circuits to trusted; otherwise the shim is called, the result is
read with `as_bool().unwrap_or(false)`, and a trusted identity is cached. -/
def adapter_is_trusted_identity
    (hostIsTrusted : Option (String → List Nat → Nat → JsValue))
    (cache : List (String × List Nat)) (addressName : String)
    (identityBytes : List Nat) (direction : StoreDirection) : TrustOutcome :=
  let cachedHit := match cache.lookup addressName with
    | some cachedKey => cachedKey == identityBytes
    | none => false
  if cachedHit then ⟨.ok true, cache⟩
  else
    let result := shimIsTrustedIdentity hostIsTrusted addressName identityBytes
      (directionVal direction)
    let trusted := result.asBool.getD false
    if trusted then ⟨.ok true, (addressName, identityBytes) :: cache⟩
    else ⟨.ok false, cache⟩

/-- `InMemorySignalStore::is_trusted_identity` (libsignal_store.rs lines
102-109): unconditionally trusted ("Baileys compatibility: always trust"). -/
def inMemory_is_trusted_identity (_address : String) (_identity : List Nat)
    (_direction : StoreDirection) : Except SigErr Bool :=
  .ok true

/-! ## Key normalization -/

/-- `ensure_curve_key_with_prefix` (storage_adapter.rs lines 552-565), the
curve-key normalizer: a 33-byte input already carrying the 0x05 djb type
marker is returned unchanged, a 32-byte input gets the marker prepended, and
anything else passes through unchanged. -/
def ensure_curve_key_with_marker (bytes : List Nat) : List Nat :=
  if bytes.length = 33 ∧ bytes.head? = some 5 then bytes
  else if bytes.length = 32 then 5 :: bytes
  else bytes

/-! ## Legacy sender-key migration
(`JsStorageAdapter::migrate_legacy_sender_key`, storage_adapter.rs lines
356-430)

The input is raw bytes: `std::str::from_utf8` validation, `str::trim` /
`starts_with('[')` sniffing, and `js_sys::JSON::parse` are modelled below.
JSON numbers are restricted to integers (sufficient for every legacy
sender-key fixture; fractional numbers are rejected by the embedded parser). -/

/-- A UTF-8 continuation byte. -/
def contByte (b : Nat) : Bool := 0x80 ≤ b ∧ b ≤ 0xBF

/-- `std::str::from_utf8`: strict UTF-8 validation (overlong encodings,
surrogates and out-of-range code points rejected), decoding to characters. -/
def utf8Decode? : List Nat → Option (List Char)
  | [] => some []
  | b0 :: rest =>
    if b0 ≤ 0x7F then
      (utf8Decode? rest).map (fun cs => Char.ofNat b0 :: cs)
    else if 0xC2 ≤ b0 ∧ b0 ≤ 0xDF then
      match rest with
      | b1 :: rest1 =>
        if contByte b1 then
          (utf8Decode? rest1).map (fun cs => Char.ofNat ((b0 % 0x20) * 0x40 + b1 % 0x40) :: cs)
        else none
      | [] => none
    else if 0xE0 ≤ b0 ∧ b0 ≤ 0xEF then
      match rest with
      | b1 :: b2 :: rest2 =>
        let b1ok := if b0 = 0xE0 then 0xA0 ≤ b1 ∧ b1 ≤ 0xBF
                    else if b0 = 0xED then 0x80 ≤ b1 ∧ b1 ≤ 0x9F
                    else contByte b1 = true
        if b1ok ∧ contByte b2 then
          (utf8Decode? rest2).map (fun cs =>
            Char.ofNat ((b0 % 0x10) * 0x1000 + (b1 % 0x40) * 0x40 + b2 % 0x40) :: cs)
        else none
      | _ => none
    else if 0xF0 ≤ b0 ∧ b0 ≤ 0xF4 then
      match rest with
      | b1 :: b2 :: b3 :: rest3 =>
        let b1ok := if b0 = 0xF0 then 0x90 ≤ b1 ∧ b1 ≤ 0xBF
                    else if b0 = 0xF4 then 0x80 ≤ b1 ∧ b1 ≤ 0x8F
                    else contByte b1 = true
        if b1ok ∧ contByte b2 ∧ contByte b3 then
          (utf8Decode? rest3).map (fun cs =>
            Char.ofNat ((b0 % 8) * 0x40000 + (b1 % 0x40) * 0x1000 +
              (b2 % 0x40) * 0x40 + b3 % 0x40) :: cs)
        else none
      | _ => none
    else none

/-- Unicode `White_Space` (the set trimmed by Rust `str::trim`); JSON's own
whitespace (space, tab, CR, LF) is a subset. -/
def rustWs (c : Char) : Bool :=
  c = ' ' ∨ c = '\t' ∨ c = '\n' ∨ c = '\r' ∨ c.toNat = 0x0B ∨ c.toNat = 0x0C ∨
  c.toNat = 0x85 ∨ c.toNat = 0xA0 ∨ c.toNat = 0x1680 ∨
  (0x2000 ≤ c.toNat ∧ c.toNat ≤ 0x200A) ∨ c.toNat = 0x2028 ∨ c.toNat = 0x2029 ∨
  c.toNat = 0x202F ∨ c.toNat = 0x205F ∨ c.toNat = 0x3000

/-- JSON whitespace (`ws` production of RFC 8259). -/
def jsonWs (c : Char) : Bool := c = ' ' ∨ c = '\t' ∨ c = '\n' ∨ c = '\r'

/-- Drop leading JSON whitespace. -/
def skipJsonWs : List Char → List Char
  | [] => []
  | c :: rest => if jsonWs c then skipJsonWs rest else c :: rest

/-- The first character of `str::trim`'s result: first non-`White_Space`
character (`trim().starts_with('[')` tests whether this is `'['`). -/
def firstNonWs : List Char → Option Char
  | [] => none
  | c :: rest => if rustWs c then firstNonWs rest else some c

/-- Hexadecimal digit value. -/
def hexVal (c : Char) : Option Nat :=
  if '0' ≤ c ∧ c ≤ '9' then some (c.toNat - '0'.toNat)
  else if 'a' ≤ c ∧ c ≤ 'f' then some (c.toNat - 'a'.toNat + 10)
  else if 'A' ≤ c ∧ c ≤ 'F' then some (c.toNat - 'A'.toNat + 10)
  else none

/-- JSON string-literal body (after the opening quote): returns the decoded
characters and the remainder after the closing quote.  Escapes are decoded;
`\uXXXX` surrogate halves are not supported (no claim input uses them). -/
def parseStrChars : List Char → Option (List Char × List Char)
  | [] => none
  | c :: rest =>
    if c = '"' then some ([], rest)
    else if c = '\\' then
      match rest with
      | [] => none
      | e :: rest1 =>
        if e = '"' ∨ e = '\\' ∨ e = '/' then
          (parseStrChars rest1).map (fun p => (e :: p.1, p.2))
        else if e = 'b' then (parseStrChars rest1).map (fun p => (Char.ofNat 8 :: p.1, p.2))
        else if e = 'f' then (parseStrChars rest1).map (fun p => (Char.ofNat 12 :: p.1, p.2))
        else if e = 'n' then (parseStrChars rest1).map (fun p => ('\n' :: p.1, p.2))
        else if e = 'r' then (parseStrChars rest1).map (fun p => ('\r' :: p.1, p.2))
        else if e = 't' then (parseStrChars rest1).map (fun p => ('\t' :: p.1, p.2))
        else if e = 'u' then
          match rest1 with
          | h1 :: h2 :: h3 :: h4 :: rest2 =>
            match hexVal h1, hexVal h2, hexVal h3, hexVal h4 with
            | some a, some b, some c2, some d =>
              let cp := ((a * 16 + b) * 16 + c2) * 16 + d
              if 0xD800 ≤ cp ∧ cp ≤ 0xDFFF then none
              else (parseStrChars rest2).map (fun p => (Char.ofNat cp :: p.1, p.2))
            | _, _, _, _ => none
          | _ => none
        else none
    else if c.toNat < 0x20 then none
    else (parseStrChars rest).map (fun p => (c :: p.1, p.2))

/-- JSON number: optional minus, digits with no redundant leading zero.
A following `.`, `e` or `E` is rejected (integers only, see module comment). -/
def parseJsonNum (cs : List Char) : Option (Int × List Char) :=
  let (neg, cs1) := match cs with
    | '-' :: rest => (true, rest)
    | _ => (false, cs)
  let digits := cs1.takeWhile Char.isDigit
  let rest := cs1.dropWhile Char.isDigit
  if digits.isEmpty then none
  else if 1 < digits.length ∧ digits.headD '0' = '0' then none
  else if (rest.headD ' ' = '.') ∨ (rest.headD ' ' = 'e') ∨ (rest.headD ' ' = 'E') then none
  else
    let v : Int := digits.foldl (fun a c => a * 10 + (Int.ofNat (c.toNat - '0'.toNat))) 0
    some (if neg then -v else v, rest)

/-- JavaScript object-member insertion: a duplicate key keeps its original
position and takes the later value (`JSON.parse` semantics). -/
def setField (fields : List (String × JsValue)) (key : String) (v : JsValue) :
    List (String × JsValue) :=
  if (fields.lookup key).isSome then
    fields.map (fun kv => if kv.1 = key then (key, v) else kv)
  else fields ++ [(key, v)]

mutual

/-- One JSON value (fuel-indexed recursive descent). -/
def jsonParseVal : Nat → List Char → Option (JsValue × List Char)
  | 0, _ => none
  | Nat.succ fuel, cs =>
    match skipJsonWs cs with
    | [] => none
    | c :: rest =>
      if c = 'n' then
        match rest with
        | 'u' :: 'l' :: 'l' :: r => some (.null, r)
        | _ => none
      else if c = 't' then
        match rest with
        | 'r' :: 'u' :: 'e' :: r => some (.bool true, r)
        | _ => none
      else if c = 'f' then
        match rest with
        | 'a' :: 'l' :: 's' :: 'e' :: r => some (.bool false, r)
        | _ => none
      else if c = '"' then
        (parseStrChars rest).map (fun p => (.str (String.mk p.1), p.2))
      else if c = '[' then
        match skipJsonWs rest with
        | ']' :: r => some (.arr [], r)
        | cs1 => (jsonParseElems fuel cs1).map (fun p => (.arr p.1, p.2))
      else if c = '{' then
        match skipJsonWs rest with
        | '}' :: r => some (.obj [], r)
        | cs1 => (jsonParseMembers fuel [] cs1).map (fun p => (.obj p.1, p.2))
      else if c = '-' ∨ c.isDigit then
        (parseJsonNum (c :: rest)).map (fun p => (.num p.1, p.2))
      else none

/-- `value (, value)* ]` after the first non-`]` character of an array body. -/
def jsonParseElems : Nat → List Char → Option (List JsValue × List Char)
  | 0, _ => none
  | Nat.succ fuel, cs =>
    match jsonParseVal fuel cs with
    | none => none
    | some (v, r) =>
      match skipJsonWs r with
      | ',' :: r1 => (jsonParseElems fuel r1).map (fun p => (v :: p.1, p.2))
      | ']' :: r1 => some ([v], r1)
      | _ => none

/-- `string : value (, string : value)* }` after the first non-`}` character
of an object body. -/
def jsonParseMembers : Nat → List (String × JsValue) → List Char →
    Option (List (String × JsValue) × List Char)
  | 0, _, _ => none
  | Nat.succ fuel, acc, cs =>
    match skipJsonWs cs with
    | '"' :: r =>
      match parseStrChars r with
      | none => none
      | some (kcs, r1) =>
        match skipJsonWs r1 with
        | ':' :: r2 =>
          match jsonParseVal fuel r2 with
          | none => none
          | some (v, r3) =>
            let acc1 := setField acc (String.mk kcs) v
            match skipJsonWs r3 with
            | ',' :: r4 => jsonParseMembers fuel acc1 r4
            | '}' :: r4 => some (acc1, r4)
            | _ => none
        | _ => none
    | _ => none

end

/-- `js_sys::JSON::parse`: parse the whole character sequence as one JSON
text (fuel `2 * length + 2` suffices: every parsed value and element consumes
at least one character). -/
def jsonParse (cs : List Char) : Except Unit JsValue :=
  match jsonParseVal (2 * cs.length + 2) cs with
  | some (v, rest) => if (skipJsonWs rest).isEmpty then .ok v else .error ()
  | none => .error ()

/-- Byte extraction from a JS array following the source's push pattern
`if let Some(v) = elem.as_f64() { bytes.push(v as u8) }`: non-number elements
are skipped. -/
def bytesFromJsElems (elems : List JsValue) : List Nat :=
  (elems.filterMap JsValue.asNum).map toU8

/-- `get_bytes_from_buffer_json` (storage_adapter.rs lines 961-1009): accepts
`{type:'Buffer', data:[...]}` shapes, `Uint8Array`s, plain arrays, and base64
strings, in that order. -/
def get_bytes_from_buffer_json (obj : JsValue) (key : String) : Option (List Nat) :=
  match (reflectGet obj key).toOption with
  | none => none
  | some val =>
    if val.isNullOrUndefined then none
    else
      let type_prop := (reflectGet val "type").toOption
      let data_prop := (reflectGet val "data").toOption
      let isBuffer := match type_prop, data_prop with
        | some t, some d => (t.asString == some "Buffer") && d.isArray
        | _, _ => false
      if isBuffer then
        match data_prop with
        | some (.arr elems) => some (bytesFromJsElems elems)
        | _ => none
      else
        match val with
        | .bytes data => some data
        | .arr elems => some (bytesFromJsElems elems)
        | _ => val.asString.bind (fun s => b64Decode s)

/-- `js_sys::Array::from` (JavaScript `Array.from`): arrays copy; strings
split into characters; `Uint8Array`s become number arrays; `null` and
`undefined` throw a `TypeError`, which crosses the non-`catch` binding as an
uncaught exception (`jsThrow`); remaining non-iterable values follow the
array-like protocol, which yields `[]` for every such value without a numeric
`length` property (the only ones arising from `JSON.parse` output). -/
def arrayFrom : JsValue → Except SigErr (List JsValue)
  | .arr elems => .ok elems
  | .str s => .ok (s.data.map (fun c => .str (String.mk [c])))
  | .bytes data => .ok (data.map (fun b => .num b))
  | .null => .error (.jsThrow "Array.from called on null")
  | .undefined => .error (.jsThrow "Array.from called on undefined")
  | _ => .ok []

/-- One element of the legacy sender-key array (lines 377-424). -/
def migrateSenderKeyState (state_obj : JsValue) : Except SigErr SenderKeyStateStructure :=
  let sender_key_id := toU32 ((get_number state_obj "senderKeyId").getD 0)
  match get_object state_obj "senderChainKey" with
  | none => .error (.invalidState "migrate_sender_key" "Missing senderChainKey")
  | some sender_chain_key_obj =>
    let iteration := toU32 ((get_number sender_chain_key_obj "iteration").getD 0)
    let seed := (get_bytes_from_buffer_json sender_chain_key_obj "seed").getD []
    match get_object state_obj "senderSigningKey" with
    | none => .error (.invalidState "migrate_sender_key" "Missing senderSigningKey")
    | some sender_signing_key_obj =>
      let public_key := (get_bytes_from_buffer_json sender_signing_key_obj "public").getD []
      let private_key := get_bytes_from_buffer_json sender_signing_key_obj "private"
      match (match get_object state_obj "senderMessageKeys" with
             | some v => arrayFrom v
             | none => .ok []) with
      | .error e => .error e
      | .ok sender_message_keys_arr =>
        let sender_message_keys := sender_message_keys_arr.map fun mk =>
          SenderMessageKey.mk (toU32 ((get_number mk "iteration").getD 0))
            ((get_bytes_from_buffer_json mk "seed").getD [])
        .ok ⟨sender_key_id, ⟨iteration, seed⟩, ⟨public_key, private_key⟩,
             sender_message_keys⟩

/-- The loop over the legacy array (lines 376-425), in order. -/
def migrateSenderKeyStates : List JsValue → Except SigErr (List SenderKeyStateStructure)
  | [] => .ok []
  | e :: rest =>
    match migrateSenderKeyState e with
    | .error err => .error err
    | .ok s =>
      match migrateSenderKeyStates rest with
      | .error err => .error err
      | .ok ss => .ok (s :: ss)

/-- `JsStorageAdapter::migrate_legacy_sender_key` (lines 356-430), returning
the constructed `SenderKeyRecordStructure` (the source protobuf-encodes it;
the caller decodes it back, spec section 4.2 round-trip law). -/
def migrate_legacy_sender_key (data : List Nat) :
    Except SigErr (Option SenderKeyRecordStructure) :=
  match utf8Decode? data with
  | none => .ok none
  | some chars =>
    if (firstNonWs chars = some '[' : Bool) = false then .ok none
    else
      match jsonParse chars with
      | .error _ => .error (.ffi "JSON parse exception")
      | .ok jsVal =>
        match jsVal with
        | .arr elems =>
          match migrateSenderKeyStates elems with
          | .error e => .error e
          | .ok states => .ok (some ⟨states⟩)
        | _ => .ok none

/-! ## Concrete fixtures used by individual claims -/

/-- A leaf value that is absent, not a string, or fails base64 decoding
(the classes the original C10 claim describes for byte-valued leaves). -/
def leafJunk : Option JsValue → Prop
  | none => True
  | some v => v.asString = none ∨ ∃ s, v.asString = some s ∧ b64Decode s = none

/-- A legacy session whose sender chain holds one stored message key under
index key "1" (message-key maps are keyed by decimal strings). -/
def c3FailingSession : JsValue :=
  .obj [("registrationId", .num 1),
        ("currentRatchet", .obj [("ephemeralKeyPair", .obj [])]),
        ("indexInfo", .obj []),
        ("_chains", .obj [("chainA", .obj
          [("chainType", .num 1), ("chainKey", .obj []),
           ("messageKeys", .obj [("1", .str "AAAAAAAAAAAAAAAAAAAAAAAAAAAAAAAAAAAAAAAAAAA=")])])])]

/-- A host value recognized as a direct legacy session but lacking `_chains`. -/
def c1NoChainsSession : JsValue :=
  .obj [("registrationId", .num 1),
        ("currentRatchet", .obj [("ephemeralKeyPair", .obj [])])]

/-- A `_sessions` wrapper with two keys whose first session is malformed. -/
def c4TwoKeyWrapper : JsValue :=
  .obj [("_sessions", .obj
    [("a", .obj [("registrationId", .num 1), ("currentRatchet", .obj [])]),
     ("b", .obj [("registrationId", .num 2)])])]

/-- An accepted legacy session with no `indexInfo` at all. -/
def c10NoIndexInfoSession : JsValue :=
  .obj [("registrationId", .num 2),
        ("currentRatchet", .obj [("ephemeralKeyPair", .obj [])]),
        ("_chains", .obj [])]

/-- Well-formedness of one element of a legacy sender-key JSON array: an
object with a numeric `senderKeyId`, an object `senderChainKey` carrying a
numeric `iteration`, and an array `senderMessageKeys`. -/
def SkWellFormed (e : JsValue) : Prop :=
  ∃ f k g it ms, e = .obj f ∧
    f.lookup "senderKeyId" = some (.num k) ∧
    f.lookup "senderChainKey" = some (.obj g) ∧
    g.lookup "iteration" = some (.num it) ∧
    f.lookup "senderMessageKeys" = some (.arr ms)

/-- The `senderKeyId` field of a legacy sender-key array element. -/
def legacyElemSenderKeyId : JsValue → Int
  | .obj f => match f.lookup "senderKeyId" with
              | some (.num k) => k
              | _ => 0
  | _ => 0

/-- The `senderChainKey.iteration` field of a legacy sender-key element. -/
def legacyElemChainIteration : JsValue → Int
  | .obj f => match f.lookup "senderChainKey" with
              | some (.obj g) => match g.lookup "iteration" with
                                 | some (.num it) => it
                                 | _ => 0
              | _ => 0
  | _ => 0

/-- A two-element legacy sender-key JSON fixture. -/
def c9LegacyJson : String := "[\x7b\"senderKeyId\":1,\"senderChainKey\":\x7b\"iteration\":5\x7d,\"senderMessageKeys\":[]\x7d,\x7b\"senderKeyId\":2,\"senderChainKey\":\x7b\"iteration\":9\x7d,\"senderMessageKeys\":[]\x7d]"

/-- The fixture's UTF-8 (here: ASCII) bytes. -/
def c9LegacyBytes : List Nat := c9LegacyJson.data.map Char.toNat

/-! ## Small evaluation lemmas -/

theorem b64Decode_empty : b64Decode "" = some [] := rfl

theorem decodeB64Field_undefined (key : String) :
    decodeB64Field JsValue.undefined key = [] := rfl

theorem get_number_undefined (key : String) :
    get_number JsValue.undefined key = none := rfl

theorem get_string_undefined (key : String) :
    get_string JsValue.undefined key = none := rfl

theorem toU32_zero : toU32 0 = 0 := rfl

theorem toU32_two : toU32 2 = 2 := rfl

theorem decodeB64Field_empty_obj (key : String) :
    decodeB64Field (JsValue.obj []) key = [] := rfl

theorem get_number_empty_obj (key : String) :
    get_number (JsValue.obj []) key = none := rfl

theorem get_object_empty_obj (key : String) :
    get_object (JsValue.obj []) key = some JsValue.undefined := rfl

/-! ## Claims -/

/-- C8: key normalization returns a 33-byte input with leading 0x05 marker
unchanged, prepends 0x05 to a 32-byte input, and passes any other length
through unchanged so that malformed lengths surface downstream. -/
theorem c8_key_normalization :
    (∀ bs : List Nat, bs.length = 33 → bs.head? = some 5 →
      ensure_curve_key_with_marker bs = bs) ∧
    (∀ bs : List Nat, bs.length = 32 →
      ensure_curve_key_with_marker bs = 5 :: bs) ∧
    (∀ bs : List Nat, bs.length ≠ 33 → bs.length ≠ 32 →
      ensure_curve_key_with_marker bs = bs) := by
  refine ⟨fun bs h1 h2 => ?_, fun bs h1 => ?_, fun bs h1 h2 => ?_⟩
  · simp [ensure_curve_key_with_marker, h1, h2]
  · simp [ensure_curve_key_with_marker, h1]
  · simp [ensure_curve_key_with_marker, h1, h2]

/-- Witness for C8 at concrete 33-, 32-, 31- and 34-byte inputs. -/
theorem c8_key_normalization_witness :
    ensure_curve_key_with_marker (5 :: List.replicate 32 9) = 5 :: List.replicate 32 9 ∧
    ensure_curve_key_with_marker (List.replicate 32 9) = 5 :: List.replicate 32 9 ∧
    ensure_curve_key_with_marker (List.replicate 31 9) = List.replicate 31 9 ∧
    ensure_curve_key_with_marker (List.replicate 34 9) = List.replicate 34 9 :=
  ⟨c8_key_normalization.1 _ (by decide) (by decide),
   c8_key_normalization.2.1 _ (by decide),
   c8_key_normalization.2.2 _ (by decide) (by decide),
   c8_key_normalization.2.2 _ (by decide) (by decide)⟩

/-- C7: with a host that does not implement identity pinning (no
`isTrustedIdentity` implementation behind the shim), the adapter's
`is_trusted_identity` resolves to trusted for every address, identity key and
direction; and the in-memory store's `is_trusted_identity` returns `true`
unconditionally. -/
theorem c7_trusted_identity_compat
    (cache : List (String × List Nat)) (addressName : String)
    (identityBytes : List Nat) (direction : StoreDirection) :
    (adapter_is_trusted_identity none cache addressName identityBytes
      direction).result = .ok true ∧
    inMemory_is_trusted_identity addressName identityBytes direction = .ok true := by
  refine ⟨?_, rfl⟩
  unfold adapter_is_trusted_identity
  split
  · dsimp only
    split <;> rfl
  · rfl

/-- C2: after `store_session(addr, r)` updates the cache, `load_session(addr)`
on the same adapter instance returns `r` with an empty host-event trace (the
cached record is returned before any host `loadSession` call), for every
host-write outcome — the cache insertion precedes the host `storeSession`
call in the store trace, so the result holds while the write is in flight. -/
theorem c2_store_then_load_cached
    (hostWrite : String → List Nat → Except SigErr Unit)
    (enc : RecordStructure → List Nat)
    (cache : List (String × RecordStructure)) (address : String)
    (record : RecordStructure)
    (host : String → Except SigErr JsValue)
    (dec : List Nat → Except SigErr RecordStructure)
    (gi : Except SigErr (List Nat)) (gr : Except SigErr Nat) :
    (load_session host dec gi gr
      (store_session hostWrite enc cache address record).cache address).result
        = .ok (some record) ∧
    (load_session host dec gi gr
      (store_session hostWrite enc cache address record).cache address).events = [] ∧
    (store_session hostWrite enc cache address record).events =
      [.cacheInsertSession address, .hostStoreSession address (enc record)] := by
  cases h : hostWrite address (enc record) <;>
    simp [store_session, load_session, h, List.lookup]

/-- C5: `store_session` inserts into the cache before issuing the host write;
when the host write fails the error propagates while the cache keeps the new
record, and a subsequent `load_session` on the same instance still returns
the record whose write failed. -/
theorem c5_store_cache_before_host_write
    (hostWrite : String → List Nat → Except SigErr Unit)
    (enc : RecordStructure → List Nat)
    (cache : List (String × RecordStructure)) (address : String)
    (record : RecordStructure) (e : SigErr)
    (host : String → Except SigErr JsValue)
    (dec : List Nat → Except SigErr RecordStructure)
    (gi : Except SigErr (List Nat)) (gr : Except SigErr Nat)
    (hfail : hostWrite address (enc record) = .error e) :
    (store_session hostWrite enc cache address record).result = .error e ∧
    (store_session hostWrite enc cache address record).cache.lookup address
      = some record ∧
    (store_session hostWrite enc cache address record).events =
      [.cacheInsertSession address, .hostStoreSession address (enc record)] ∧
    (load_session host dec gi gr
      (store_session hostWrite enc cache address record).cache address).result
        = .ok (some record) := by
  simp [store_session, load_session, hfail, List.lookup]

/-- Witness for C5 at a concrete failing host write. -/
theorem c5_store_cache_before_host_write_witness :
    (store_session (fun _ _ => .error (.ffi "host write failed")) (fun _ => [])
      [] "peer.1" ⟨none, []⟩).result = .error (.ffi "host write failed") ∧
    (store_session (fun _ _ => .error (.ffi "host write failed")) (fun _ => [])
      [] "peer.1" ⟨none, []⟩).cache.lookup "peer.1" = some ⟨none, []⟩ ∧
    (store_session (fun _ _ => .error (.ffi "host write failed")) (fun _ => [])
      [] "peer.1" ⟨none, []⟩).events =
        [.cacheInsertSession "peer.1", .hostStoreSession "peer.1" []] ∧
    (load_session (fun _ => .ok .null) (fun _ => .error (.codec "unused"))
      (.ok []) (.ok 0)
      (store_session (fun _ _ => .error (.ffi "host write failed")) (fun _ => [])
        [] "peer.1" ⟨none, []⟩).cache "peer.1").result = .ok (some ⟨none, []⟩) :=
  c5_store_cache_before_host_write _ _ _ "peer.1" ⟨none, []⟩ _ _ _ _ _ rfl

/-- C3 (code bug evaluation): migrating a legacy session that contains a
stored message key fails outright — the index keys produced by
`js_sys::Object::keys` are JavaScript strings, and `JsValue::as_f64` does not
coerce strings, so the "Message key index is not a number" error fires for
every non-empty `messageKeys` map; no message key is ever migrated, contra
the intended zero-filled MAC/IV migration the code itself constructs in its
`MessageKey` literals (lines 288-293). -/
theorem c3_message_key_index_bug :
    migrate_legacy_json (.ok [5]) (.ok 1) c3FailingSession =
      .error (.invalidState "migrate" "Message key index is not a number") := by
  rfl

/-- C6: a host-returned value that is not null/undefined, not a byte buffer,
and not any recognized legacy shape (no `_sessions` property and not both
`registrationId` and `currentRatchet`) makes `load_session` return `None`,
not an error. -/
theorem c6_unrecognized_shape_none
    (host : String → Except SigErr JsValue)
    (dec : List Nat → Except SigErr RecordStructure)
    (gi : Except SigErr (List Nat)) (gr : Except SigErr Nat)
    (cache : List (String × RecordStructure)) (address : String) (v : JsValue)
    (hhost : host address = .ok v)
    (hmiss : cache.lookup address = none)
    (hnn : v.isNullOrUndefined = false)
    (hnb : ∀ bs, v ≠ .bytes bs)
    (hs : jsHas v "_sessions" = false)
    (hlegacy : ¬(jsHas v "registrationId" = true ∧ jsHas v "currentRatchet" = true)) :
    (load_session host dec gi gr cache address).result = .ok none := by
  have hbb : (jsHas v "registrationId" && jsHas v "currentRatchet") = false := by
    cases h1 : jsHas v "registrationId" <;> cases h2 : jsHas v "currentRatchet" <;>
      simp_all
  have hmig : migrate_legacy_json gi gr v = .ok none := by
    simp [migrate_legacy_json, lookupSessionData, hbb, hs]
  cases v with
  | bytes bs => exact absurd rfl (hnb bs)
  | null => simp [JsValue.isNullOrUndefined] at hnn
  | undefined => simp [JsValue.isNullOrUndefined] at hnn
  | _ => simp [load_session, hmiss, hhost, hmig, JsValue.isNullOrUndefined]

/-- Witness for C6 at a concrete unrecognized host value. -/
theorem c6_unrecognized_shape_none_witness :
    (load_session (fun _ => .ok (.obj [("foo", .num 1)]))
      (fun _ => .error (.codec "unused")) (.ok []) (.ok 0) [] "peer.1").result
      = .ok none :=
  c6_unrecognized_shape_none _ _ _ _ _ _ (.obj [("foo", .num 1)]) rfl rfl rfl
    (fun bs h => by cases h) rfl (by decide)

/-- C1 (counterexample): a recognized legacy session with no `_chains`
produces a migration error that `load_session` propagates — the result is an
`InvalidState` error, not the "no session" `None` the claim requires. -/
theorem c1_counterexample :
    (load_session (fun _ => .ok c1NoChainsSession) (fun _ => .error (.codec "unused"))
      (.ok [5]) (.ok 1) [] "peer.1").result =
      .error (.invalidState "migrate" "_chains expected to be an object") := by
  rfl

/-- C4 (counterexample): given a `_sessions` wrapper with two keys,
`load_session` can return an error (the selected first session is malformed),
contradicting "never returns an error". -/
theorem c4_counterexample :
    (load_session (fun _ => .ok c4TwoKeyWrapper) (fun _ => .error (.codec "unused"))
      (.ok [5]) (.ok 1) [] "peer.1").result =
      .error (.invalidState "migrate" "_chains expected to be an object") := by
  rfl

/-- C10 (counterexample): absence of the `indexInfo` container raises no
error — migration succeeds, silently producing empty remote-identity and
Alice base keys, contradicting the claim that absence of `indexInfo` raises
an error. -/
theorem c10_counterexample :
    migrate_legacy_json (.ok [7]) (.ok 5) c10NoIndexInfoSession =
      .ok (some ⟨some ⟨3, [7], [], [], 0, none, [], 2, 5, []⟩, []⟩) := by
  rfl

/-- C1 (amended): a host value recognized as a direct legacy session but
lacking `_chains` makes migration fail with an explicit `InvalidState` error
which `load_session` propagates as a hard failure (not "no session"); and a
wrapper-selected session lacking `currentRatchet` fails with the
"Missing ephemeralKeyPair" `InvalidState` error.  (A missing `indexInfo`, by
contrast, raises no error — see the C10 development.) -/
theorem c1_migration_error_propagates :
    (∀ (lid : List Nat) (gr : Except SigErr Nat)
       (fields : List (String × JsValue)) (host : String → Except SigErr JsValue)
       (dec : List Nat → Except SigErr RecordStructure)
       (cache : List (String × RecordStructure)) (address : String),
      (fields.lookup "registrationId").isSome = true →
      (fields.lookup "currentRatchet").isSome = true →
      fields.lookup "_chains" = none →
      host address = .ok (.obj fields) →
      cache.lookup address = none →
      ∃ m, migrate_legacy_json (.ok lid) gr (.obj fields)
            = .error (.invalidState "migrate" m) ∧
           (load_session host dec (.ok lid) gr cache address).result
            = .error (.invalidState "migrate" m)) ∧
    (∀ (lid : List Nat) (gr : Except SigErr Nat) (fields : List (String × JsValue)),
      (fields.lookup "registrationId").isSome = true →
      fields.lookup "currentRatchet" = none →
      migrateSessionData (.ok lid) gr (.obj fields)
        = .error (.invalidState "migrate" "Missing ephemeralKeyPair")) := by
  constructor
  · intro lid gr fields host dec cache address h1 h2 h3 hhost hmiss
    obtain ⟨rv, hrv⟩ := Option.isSome_iff_exists.mp h1
    obtain ⟨crv, hcrv⟩ := Option.isSome_iff_exists.mp h2
    have hmig : ∃ m, migrateSessionData (.ok lid) gr (.obj fields)
        = .error (.invalidState "migrate" m) := by
      cases crv with
      | obj g =>
        exact ⟨"_chains expected to be an object",
          by simp [migrateSessionData, jsHas, reflectHas, reflectGet, get_object,
                   Except.toOption, Option.getD, hrv, hcrv, h3, JsValue.isObjectLike]⟩
      | arr es =>
        exact ⟨"_chains expected to be an object",
          by simp [migrateSessionData, jsHas, reflectHas, reflectGet, get_object,
                   Except.toOption, Option.getD, hrv, hcrv, h3, JsValue.isObjectLike]⟩
      | bytes bs =>
        exact ⟨"_chains expected to be an object",
          by simp [migrateSessionData, jsHas, reflectHas, reflectGet, get_object,
                   Except.toOption, Option.getD, hrv, hcrv, h3, JsValue.isObjectLike]⟩
      | _ =>
        exact ⟨"Missing ephemeralKeyPair",
          by simp [migrateSessionData, jsHas, reflectHas, reflectGet, get_object,
                   Except.toOption, Option.getD, hrv, hcrv, h3, JsValue.isObjectLike]⟩
    obtain ⟨m, hm⟩ := hmig
    have hlk : lookupSessionData (.obj fields) = .ok (some (.obj fields)) := by
      simp [lookupSessionData, jsHas, reflectHas, Except.toOption, Option.getD, hrv, hcrv]
    have hmig2 : migrate_legacy_json (.ok lid) gr (.obj fields)
        = .error (.invalidState "migrate" m) := by
      simp [migrate_legacy_json, hlk, hm]
    refine ⟨m, hmig2, ?_⟩
    simp [load_session, hmiss, hhost, hmig2, JsValue.isNullOrUndefined]
  · intro lid gr fields h1 h2
    obtain ⟨rv, hrv⟩ := Option.isSome_iff_exists.mp h1
    simp [migrateSessionData, jsHas, reflectHas, reflectGet, get_object,
          Except.toOption, Option.getD, hrv, h2]

/-- Witness for C1 (amended) at concrete inputs: a `_chains`-less direct
session, and a `currentRatchet`-less session body. -/
theorem c1_migration_error_propagates_witness :
    (∃ m, migrate_legacy_json (.ok [5]) (.ok 1)
        (.obj [("registrationId", .num 1),
               ("currentRatchet", .obj [("ephemeralKeyPair", .obj [])])])
        = .error (.invalidState "migrate" m) ∧
      (load_session
        (fun _ => .ok (.obj [("registrationId", .num 1),
          ("currentRatchet", .obj [("ephemeralKeyPair", .obj [])])]))
        (fun _ => .error (.codec "unused")) (.ok [5]) (.ok 1) [] "peer.1").result
        = .error (.invalidState "migrate" m)) ∧
    migrateSessionData (.ok [5]) (.ok 1) (.obj [("registrationId", .num 1)])
      = .error (.invalidState "migrate" "Missing ephemeralKeyPair") :=
  ⟨c1_migration_error_propagates.1 [5] (.ok 1) _ _ _ [] "peer.1"
      rfl rfl rfl rfl rfl,
   c1_migration_error_propagates.2 [5] (.ok 1) _ rfl rfl⟩

/-- C4 (amended): for a host value exposing a `_sessions` map (and not itself
shaped as a direct legacy session), migration selects exactly the first key in
enumeration order — its outcome equals migrating that first session value
alone, independent of all later entries — and a `_sessions` map with zero keys
yields `None`.  ("Never errors" from the original claim is dropped: by
`c4_counterexample` a malformed selected session makes `load_session`
error.) -/
theorem c4_first_session_selected :
    (∀ (gi : Except SigErr (List Nat)) (gr : Except SigErr Nat)
       (wrapFields : List (String × JsValue)) (k : String) (s : JsValue)
       (rest : List (String × JsValue)),
      wrapFields.lookup "_sessions" = some (.obj ((k, s) :: rest)) →
      ¬((wrapFields.lookup "registrationId").isSome = true ∧
        (wrapFields.lookup "currentRatchet").isSome = true) →
      migrate_legacy_json gi gr (.obj wrapFields) = migrateSessionData gi gr s) ∧
    (∀ (gi : Except SigErr (List Nat)) (gr : Except SigErr Nat)
       (wrapFields : List (String × JsValue)),
      wrapFields.lookup "_sessions" = some (.obj []) →
      ¬((wrapFields.lookup "registrationId").isSome = true ∧
        (wrapFields.lookup "currentRatchet").isSome = true) →
      migrate_legacy_json gi gr (.obj wrapFields) = .ok none) := by
  constructor
  · intro gi gr wrapFields k s rest hsess hndir
    have hbb : ((wrapFields.lookup "registrationId").isSome &&
        (wrapFields.lookup "currentRatchet").isSome) = false := by
      by_contra hb
      rw [Bool.not_eq_false, Bool.and_eq_true] at hb
      exact hndir ⟨hb.1, hb.2⟩
    simp [migrate_legacy_json, lookupSessionData, hbb, jsHas, reflectHas, hsess,
          get_object, reflectGet, Except.toOption, Option.getD, objectKeys,
          JsValue.isObjectLike, List.lookup]
  · intro gi gr wrapFields hsess hndir
    have hbb : ((wrapFields.lookup "registrationId").isSome &&
        (wrapFields.lookup "currentRatchet").isSome) = false := by
      by_contra hb
      rw [Bool.not_eq_false, Bool.and_eq_true] at hb
      exact hndir ⟨hb.1, hb.2⟩
    simp [migrate_legacy_json, lookupSessionData, hbb, jsHas, reflectHas, hsess,
          get_object, reflectGet, Except.toOption, Option.getD, objectKeys,
          JsValue.isObjectLike]

/-- Witness for C4 (amended): a two-key wrapper migrates as its first session
alone, and an empty wrapper yields `None`. -/
theorem c4_first_session_selected_witness :
    migrate_legacy_json (.ok []) (.ok 0)
      (.obj [("_sessions", .obj
        [("a", .obj [("registrationId", .num 1)]), ("b", .num 2)])])
      = migrateSessionData (.ok []) (.ok 0) (.obj [("registrationId", .num 1)]) ∧
    migrate_legacy_json (.ok []) (.ok 0) (.obj [("_sessions", .obj [])])
      = .ok none :=
  ⟨c4_first_session_selected.1 (.ok []) (.ok 0) _ "a" _ _ rfl (by simp),
   c4_first_session_selected.2 (.ok []) (.ok 0) _ rfl (by simp)⟩

/-- C10 (amended): within an accepted legacy session object, junk byte-leaves
(absent / non-string / invalid base64) and absent numeric leaves default
silently to empty bytes and 0 — including the whole `indexInfo`,
`ephemeralKeyPair` and `chainKey` containers being absent, which raises no
error; a non-empty `messageKeys` map, however, always raises the
"Message key index is not a number" `InvalidState` error (property keys are
strings and the numeric index check rejects them), so message-key leaves are
never silently defaulted. -/
theorem c10_leaf_defaults :
    (∀ (lid : List Nat) (rid : Nat) (fields cr : List (String × JsValue)) (rv : JsValue),
      fields.lookup "registrationId" = some rv →
      rv.asNum = none →
      fields.lookup "currentRatchet" = some (.obj cr) →
      leafJunk (cr.lookup "rootKey") →
      (cr.lookup "previousCounter").bind JsValue.asNum = none →
      cr.lookup "ephemeralKeyPair" = none →
      fields.lookup "indexInfo" = none →
      fields.lookup "_chains" = some (.obj []) →
      migrate_legacy_json (.ok lid) (.ok rid) (.obj fields)
        = .ok (some ⟨some ⟨3, lid, [], [], 0, none, [], 0, rid, []⟩, []⟩)) ∧
    (∀ (lid : List Nat) (rid : Nat) (r : Int) (hr0 : 0 ≤ r) (hr1 : r ≤ 4294967295)
       (fields cf : List (String × JsValue)) (ckName : String),
      fields.lookup "registrationId" = some (.num r) →
      fields.lookup "currentRatchet" = some (.obj []) →
      fields.lookup "indexInfo" = none →
      fields.lookup "_chains" = some (.obj [(ckName, .obj cf)]) →
      cf.lookup "chainType" = some (.num 2) →
      cf.lookup "chainKey" = none →
      cf.lookup "messageKeys" = some (.obj []) →
      b64Decode ckName = none →
      migrate_legacy_json (.ok lid) (.ok rid) (.obj fields)
        = .ok (some ⟨some ⟨3, lid, [], [], 0, none, [⟨[], none, ⟨0, []⟩, []⟩],
            r.toNat, rid, []⟩, []⟩)) ∧
    (∀ (lid : List Nat) (rid : Nat) (fields cr cf : List (String × JsValue))
       (ckName i : String) (v : JsValue) (mkrest : List (String × JsValue)),
      (fields.lookup "registrationId").isSome = true →
      fields.lookup "currentRatchet" = some (.obj cr) →
      fields.lookup "_chains" = some (.obj [(ckName, .obj cf)]) →
      cf.lookup "messageKeys" = some (.obj ((i, v) :: mkrest)) →
      migrate_legacy_json (.ok lid) (.ok rid) (.obj fields)
        = .error (.invalidState "migrate" "Message key index is not a number")) := by
  refine ⟨?_, ?_, ?_⟩
  · intro lid rid fields cr rv h1 h1n h2 h3 h4 h5 h6 h7
    have hroot : decodeB64Field (.obj cr) "rootKey" = [] := by
      cases hcl : cr.lookup "rootKey" with
      | none =>
        simp [decodeB64Field, get_string, reflectGet, Except.toOption, Option.getD,
              hcl, JsValue.asString, b64Decode_empty]
      | some v =>
        rw [hcl] at h3
        rcases h3 with h | ⟨s, hs1, hs2⟩
        · simp [decodeB64Field, get_string, reflectGet, Except.toOption, Option.getD,
                hcl, h, b64Decode_empty]
        · simp [decodeB64Field, get_string, reflectGet, Except.toOption, Option.getD,
                hcl, hs1, hs2]
    have hpc : get_number (.obj cr) "previousCounter" = none := by
      cases hcl : cr.lookup "previousCounter" with
      | none =>
        simp [get_number, reflectGet, Except.toOption, Option.getD, hcl, JsValue.asNum]
      | some v =>
        rw [hcl] at h4
        simp only [Option.some_bind] at h4
        simp [get_number, reflectGet, Except.toOption, Option.getD, hcl, h4]
    have hlk : lookupSessionData (.obj fields) = .ok (some (.obj fields)) := by
      simp [lookupSessionData, jsHas, reflectHas, Except.toOption, Option.getD, h1, h2]
    have hreg : get_number (.obj fields) "registrationId" = none := by
      simp [get_number, reflectGet, Except.toOption, Option.getD, h1, h1n]
    have hmig : migrateSessionData (.ok lid) (.ok rid) (.obj fields)
        = .ok (some ⟨some ⟨3, lid, [], [], 0, none, [], 0, rid, []⟩, []⟩) := by
      simp [migrateSessionData, jsHas, reflectHas, reflectGet, get_object,
            Except.toOption, Option.getD, h1, h2, h5, h6, h7, hroot, hpc, hreg,
            JsValue.isObjectLike, objectKeys, processChains, mkSenderChain,
            toU32_zero, decodeB64Field_undefined, get_number_undefined]
    simp [migrate_legacy_json, hlk, hmig]
  · intro lid rid r hr0 hr1 fields cf ckName h1 h2 h6 h7 hc1 hc2 hc3 hk
    have hlk : lookupSessionData (.obj fields) = .ok (some (.obj fields)) := by
      simp [lookupSessionData, jsHas, reflectHas, Except.toOption, Option.getD, h1, h2]
    have htu : toU32 r = r.toNat := by
      unfold toU32
      rw [if_neg (by omega), if_neg (by omega)]
    have hrg : get_number (.obj fields) "registrationId" = some r := by
      simp [get_number, reflectGet, Except.toOption, Option.getD, h1, JsValue.asNum]
    have hct : get_number (.obj cf) "chainType" = some 2 := by
      simp [get_number, reflectGet, Except.toOption, Option.getD, hc1, JsValue.asNum]
    have hmig : migrateSessionData (.ok lid) (.ok rid) (.obj fields)
        = .ok (some ⟨some ⟨3, lid, [], [], 0, none, [⟨[], none, ⟨0, []⟩, []⟩],
            r.toNat, rid, []⟩, []⟩) := by
      simp [migrateSessionData, jsHas, reflectHas, reflectGet, get_object,
            Except.toOption, Option.getD, h1, h2, h6, h7, hc2, hc3, hk, htu, hrg, hct,
            JsValue.isObjectLike, objectKeys, processChains, processMessageKeys,
            mkSenderChain, mkReceiverChain, mkMessageKeys, JsValue.asString,
            toU32_zero, toU32_two, decodeB64Field_undefined, get_number_undefined,
            decodeB64Field_empty_obj, get_number_empty_obj, get_object_empty_obj,
            List.lookup]
    simp [migrate_legacy_json, hlk, hmig]
  · intro lid rid fields cr cf ckName i v mkrest h1 h2 h7 hmk
    obtain ⟨rv, hrv⟩ := Option.isSome_iff_exists.mp h1
    have hlk : lookupSessionData (.obj fields) = .ok (some (.obj fields)) := by
      simp [lookupSessionData, jsHas, reflectHas, Except.toOption, Option.getD, hrv, h2]
    have hmig : migrateSessionData (.ok lid) (.ok rid) (.obj fields)
        = .error (.invalidState "migrate" "Message key index is not a number") := by
      simp [migrateSessionData, jsHas, reflectHas, reflectGet, get_object, get_number,
            Except.toOption, Option.getD, hrv, h2, h7, hmk,
            JsValue.isObjectLike, objectKeys, processChains, processMessageKeys,
            JsValue.asNum, List.lookup]
    simp [migrate_legacy_json, hlk, hmig]

/-- Witness for C10 (amended) at concrete inputs exercising all three parts:
all-junk leaves with absent `indexInfo`/`ephemeralKeyPair`, an absent
`chainKey` inside a receiver chain, and a one-entry `messageKeys` map. -/
theorem c10_leaf_defaults_witness :
    migrate_legacy_json (.ok [7]) (.ok 5)
      (.obj [("registrationId", .str "x"),
             ("currentRatchet", .obj [("rootKey", .num 3)]),
             ("_chains", .obj [])])
      = .ok (some ⟨some ⟨3, [7], [], [], 0, none, [], 0, 5, []⟩, []⟩) ∧
    migrate_legacy_json (.ok [7]) (.ok 5)
      (.obj [("registrationId", .num 9),
             ("currentRatchet", .obj []),
             ("_chains", .obj [("notb64!", .obj
               [("chainType", .num 2), ("messageKeys", .obj [])])])])
      = .ok (some ⟨some ⟨3, [7], [], [], 0, none, [⟨[], none, ⟨0, []⟩, []⟩],
          Int.toNat 9, 5, []⟩, []⟩) ∧
    migrate_legacy_json (.ok [7]) (.ok 5)
      (.obj [("registrationId", .num 1),
             ("currentRatchet", .obj []),
             ("_chains", .obj [("k", .obj
               [("messageKeys", .obj [("1", .str "AA==")])])])])
      = .error (.invalidState "migrate" "Message key index is not a number") :=
  ⟨c10_leaf_defaults.1 [7] 5 _ _ (.str "x") rfl rfl rfl (Or.inl rfl) rfl rfl rfl rfl,
   c10_leaf_defaults.2.1 [7] 5 9 (by decide) (by decide) _ _ "notb64!"
     rfl rfl rfl rfl rfl rfl rfl rfl,
   c10_leaf_defaults.2.2 [7] 5 _ _ _ "k" "1" (.str "AA==") [] rfl rfl rfl rfl⟩

/-- For a well-formed legacy sender-key element, migration succeeds and the
produced state's `sender_key_id` and chain iteration are the element's
`senderKeyId` and `senderChainKey.iteration` (as `u32`). -/
theorem skState_fields (e : JsValue) (h : SkWellFormed e) :
    (migrateSenderKeyState e).map SenderKeyStateStructure.sender_key_id
      = .ok (toU32 (legacyElemSenderKeyId e)) ∧
    (migrateSenderKeyState e).map (fun st => st.sender_chain_key.iteration)
      = .ok (toU32 (legacyElemChainIteration e)) := by
  obtain ⟨f, k, g, it, ms, rfl, h1, h2, h3, h4⟩ := h
  constructor <;>
    simp [migrateSenderKeyState, legacyElemSenderKeyId, legacyElemChainIteration,
          get_object, get_number, reflectGet, Except.toOption, Option.getD,
          h1, h2, h3, h4, JsValue.asNum, arrayFrom, Except.map]

/-- Pointwise correspondence of the migrated state list with a well-formed
legacy element list. -/
theorem skStates_wf (elems : List JsValue) (h : ∀ e ∈ elems, SkWellFormed e) :
    ∃ states, migrateSenderKeyStates elems = .ok states ∧
      states.length = elems.length ∧
      (∀ j : Nat, (states.get? j).map SenderKeyStateStructure.sender_key_id
        = (elems.get? j).map (fun e => toU32 (legacyElemSenderKeyId e))) ∧
      (∀ j : Nat, (states.get? j).map (fun st => st.sender_chain_key.iteration)
        = (elems.get? j).map (fun e => toU32 (legacyElemChainIteration e))) := by
  induction elems with
  | nil => exact ⟨[], rfl, rfl, fun j => by cases j <;> rfl, fun j => by cases j <;> rfl⟩
  | cons e rest ih =>
    obtain ⟨hid, hit⟩ := skState_fields e (h e (List.mem_cons_self e rest))
    obtain ⟨states, hst, hlen, hmap1, hmap2⟩ :=
      ih (fun x hx => h x (List.mem_cons_of_mem e hx))
    cases hse : migrateSenderKeyState e with
    | error err => rw [hse] at hid; simp [Except.map] at hid
    | ok st =>
      rw [hse] at hid hit
      simp only [Except.map] at hid hit
      refine ⟨st :: states, ?_, by simp [hlen], fun j => ?_, fun j => ?_⟩
      · simp [migrateSenderKeyStates, hse, hst]
      · cases j with
        | zero => simpa using hid
        | succ n => simpa using hmap1 n
      · cases j with
        | zero => simpa using hit
        | succ n => simpa using hmap2 n

/-- C9: sender-key migration returns "not legacy" (`None`) for non-UTF-8
input and for input whose first non-whitespace character is not `[`; and for
a parsed legacy JSON array of well-formed elements it produces a
`SenderKeyRecordStructure` with exactly one state per element, whose
`sender_key_id` and sender-chain iteration equal the element's `senderKeyId`
and `senderChainKey.iteration`. -/
theorem c9_sender_key_migration :
    (∀ data : List Nat, utf8Decode? data = none →
      migrate_legacy_sender_key data = .ok none) ∧
    (∀ (data : List Nat) (cs : List Char), utf8Decode? data = some cs →
      firstNonWs cs ≠ some '[' → migrate_legacy_sender_key data = .ok none) ∧
    (∀ (data : List Nat) (cs : List Char) (elems : List JsValue),
      utf8Decode? data = some cs →
      firstNonWs cs = some '[' →
      jsonParse cs = .ok (.arr elems) →
      (∀ e ∈ elems, SkWellFormed e) →
      ∃ states, migrate_legacy_sender_key data = .ok (some ⟨states⟩) ∧
        states.length = elems.length ∧
        (∀ j : Nat, (states.get? j).map SenderKeyStateStructure.sender_key_id
          = (elems.get? j).map (fun e => toU32 (legacyElemSenderKeyId e))) ∧
        (∀ j : Nat, (states.get? j).map (fun st => st.sender_chain_key.iteration)
          = (elems.get? j).map (fun e => toU32 (legacyElemChainIteration e)))) := by
  refine ⟨?_, ?_, ?_⟩
  · intro data h
    simp [migrate_legacy_sender_key, h]
  · intro data cs h1 h2
    simp [migrate_legacy_sender_key, h1, h2]
  · intro data cs elems h1 h2 h3 h4
    obtain ⟨states, hst, hlen, hmap1, hmap2⟩ := skStates_wf elems h4
    exact ⟨states, by simp [migrate_legacy_sender_key, h1, h2, h3, hst],
           hlen, hmap1, hmap2⟩

set_option maxRecDepth 100000 in
/-- Witness for C9 at the two-element fixture. -/
theorem c9_sender_key_migration_witness :
    ∃ states, migrate_legacy_sender_key c9LegacyBytes = .ok (some ⟨states⟩) ∧
      states.length = 2 ∧
      (∀ j : Nat, (states.get? j).map SenderKeyStateStructure.sender_key_id
        = (([.obj [("senderKeyId", .num 1),
                    ("senderChainKey", .obj [("iteration", .num 5)]),
                    ("senderMessageKeys", .arr [])],
             .obj [("senderKeyId", .num 2),
                    ("senderChainKey", .obj [("iteration", .num 9)]),
                    ("senderMessageKeys", .arr [])]] : List JsValue).get? j).map
            (fun e => toU32 (legacyElemSenderKeyId e))) ∧
      (∀ j : Nat, (states.get? j).map (fun st => st.sender_chain_key.iteration)
        = (([.obj [("senderKeyId", .num 1),
                    ("senderChainKey", .obj [("iteration", .num 5)]),
                    ("senderMessageKeys", .arr [])],
             .obj [("senderKeyId", .num 2),
                    ("senderChainKey", .obj [("iteration", .num 9)]),
                    ("senderMessageKeys", .arr [])]] : List JsValue).get? j).map
            (fun e => toU32 (legacyElemChainIteration e))) :=
  c9_sender_key_migration.2.2 c9LegacyBytes c9LegacyJson.data
    [.obj [("senderKeyId", .num 1),
           ("senderChainKey", .obj [("iteration", .num 5)]),
           ("senderMessageKeys", .arr [])],
     .obj [("senderKeyId", .num 2),
           ("senderChainKey", .obj [("iteration", .num 9)]),
           ("senderMessageKeys", .arr [])]]
    (by rfl) (by rfl) (by rfl)
    (by
      intro e he
      simp only [List.mem_cons, List.not_mem_nil, or_false] at he
      rcases he with rfl | rfl
      · exact ⟨_, 1, _, 5, [], rfl, rfl, rfl, rfl, rfl⟩
      · exact ⟨_, 2, _, 9, [], rfl, rfl, rfl, rfl, rfl⟩)
